import Mathlib

/-!
A shallow embedding of `src/01/main.js` (class `PostProcessor`), which binds an
HTML video element to a canvas and repaints the canvas once per presented video
frame, applying a declarative 2d-context filter.

The embedding models the browser-visible state (video dimensions, event
listeners on the video element, video-frame-callback registrations, canvas
dimensions, the 2d context filter, and the drawn content) together with the
`PostProcessor` object's own fields (`destroyed`, `video`, `canvas`, `ctx`,
`callback`).  JavaScript function references produced by `Function.prototype.bind`
are modelled as values of `FunRef`: each `bind` call yields a fresh object,
distinct from the unbound prototype method, mirroring JS reference equality,
which is what `addEventListener` / `removeEventListener` compare.
-/

/-- A JavaScript function reference.  `resizeMethod` / `processFrameMethod` are
the unbound prototype methods (`this.resize`, `this.processFrame`);
`boundResize id` / `boundProcessFrame id` are the fresh function objects
produced by `this.resize.bind(this)` / `this.processFrame.bind(this)` — a new
object on every `bind` call, never reference-equal to the unbound method. -/
inductive FunRef where
  | resizeMethod : FunRef
  | processFrameMethod : FunRef
  | boundResize : Nat → FunRef
  | boundProcessFrame : Nat → FunRef
deriving DecidableEq, Repr

/-- One `ctx.drawImage(video, dx, dy)` call: the video's natural dimensions at
the time of the call, and the destination position. -/
structure Blit where
  srcW : Nat
  srcH : Nat
  dx : Nat
  dy : Nat
deriving DecidableEq, Repr

/-- The browser-visible state: the one video element, the one canvas element
and its 2d context.  `vfcAll` records every `requestVideoFrameCallback`
registration ever made (id, handler); `vfcActive` holds the ids still pending.
`blitLog` records every `drawImage` call ever made; `bitmap` is the canvas
content, which clearing (by a width/height write) resets. -/
structure Browser where
  videoWidth : Nat
  videoHeight : Nat
  resizeListeners : List FunRef := []
  metaListeners : List FunRef := []
  vfcAll : List (Nat × FunRef) := []
  vfcActive : List Nat := []
  nextVfcId : Nat := 0
  nextBindId : Nat := 0
  canvasWidth : Nat := 0
  canvasHeight : Nat := 0
  ctxFilter : String := "none"
  bitmap : List Blit := []
  blitLog : List Blit := []
deriving DecidableEq, Repr

/-- The `PostProcessor` object's own fields.  `video`, `canvas`, `ctx` are the
stored handles (`none` models JavaScript `null`); `callback` is the stored
video-frame-callback subscription handle (src/01/main.js line 16 / 27). -/
structure PostProcessor where
  destroyed : Bool
  video : Option Unit
  canvas : Option Unit
  ctx : Option Unit
  callback : Nat
deriving DecidableEq, Repr

/-- Whole-system state: browser plus the one `PostProcessor` instance. -/
structure St where
  env : Browser
  proc : PostProcessor
deriving DecidableEq, Repr

/-- A JavaScript exception, as far as this program can produce one:
`nullDeref` is the implicit `TypeError` raised by invoking a method on a null
handle; `explicitThrow` is an error raised by a deliberate `throw` statement
(the source contains no `throw`, so the code never produces this value — it
exists so that the spec's "raise an explicit error" can be stated). -/
inductive JsError where
  | nullDeref : JsError
  | explicitThrow : JsError
deriving DecidableEq, Repr

/-- The filter string applied by `resize` (src/01/main.js line 22). -/
def filterConst : String := "contrast(1.5) saturate(200%)"

/-- DOM `addEventListener`: registers the listener unless the very same
function reference is already registered. -/
def addEventListener (ls : List FunRef) (f : FunRef) : List FunRef :=
  if f ∈ ls then ls else ls ++ [f]

/-- DOM `removeEventListener`: removes the listener that is reference-equal to
the argument; a no-op when none is. -/
def removeEventListener (ls : List FunRef) (f : FunRef) : List FunRef :=
  ls.filter (fun g => g != f)

/-- `this.resize.bind(this)`: allocates a fresh function object. -/
def bindResize (b : Browser) : FunRef × Browser :=
  (FunRef.boundResize b.nextBindId, { b with nextBindId := b.nextBindId + 1 })

/-- `this.processFrame.bind(this)`: allocates a fresh function object. -/
def bindProcessFrame (b : Browser) : FunRef × Browser :=
  (FunRef.boundProcessFrame b.nextBindId, { b with nextBindId := b.nextBindId + 1 })

/-- `video.requestVideoFrameCallback(f)`: registers `f` as a one-shot callback
and returns the fresh subscription handle. -/
def requestVideoFrameCallback (b : Browser) (f : FunRef) : Nat × Browser :=
  (b.nextVfcId,
   { b with vfcAll := b.vfcAll ++ [(b.nextVfcId, f)],
            vfcActive := b.vfcActive ++ [b.nextVfcId],
            nextVfcId := b.nextVfcId + 1 })

/-- `video.cancelVideoFrameCallback(id)`: deactivates the subscription with
that handle; a no-op when the handle is not active. -/
def cancelVideoFrameCallback (b : Browser) (id : Nat) : Browser :=
  { b with vfcActive := b.vfcActive.filter (fun j => j != id) }

/-- `canvas.width = w`: per the HTML specification this resets the canvas
bitmap and the 2d context state, including the filter (back to its default
value, the string "none"). -/
def setCanvasWidth (b : Browser) (w : Nat) : Browser :=
  { b with canvasWidth := w, ctxFilter := "none", bitmap := [] }

/-- `canvas.height = h`: likewise resets the bitmap and the context state. -/
def setCanvasHeight (b : Browser) (h : Nat) : Browser :=
  { b with canvasHeight := h, ctxFilter := "none", bitmap := [] }

/-- `ctx.filter = s`. -/
def setCtxFilter (b : Browser) (s : String) : Browser :=
  { b with ctxFilter := s }

/-- `ctx.drawImage(video, dx, dy)`: one blit of the video's current content at
its natural size, recorded both on the canvas and in the permanent log. -/
def drawImageVideo (b : Browser) (dx dy : Nat) : Browser :=
  { b with bitmap := b.bitmap ++ [{ srcW := b.videoWidth, srcH := b.videoHeight, dx := dx, dy := dy }],
           blitLog := b.blitLog ++ [{ srcW := b.videoWidth, srcH := b.videoHeight, dx := dx, dy := dy }] }

/-- `PostProcessor.resize` (src/01/main.js lines 19-23):
`this.canvas.width = this.video.videoWidth; this.canvas.height =
this.video.videoHeight; this.ctx.filter = 'contrast(1.5) saturate(200%)'`. -/
def PostProcessor.resize (s : St) : St :=
  let b1 := setCanvasWidth s.env s.env.videoWidth
  let b2 := setCanvasHeight b1 b1.videoHeight
  let b3 := setCtxFilter b2 filterConst
  { s with env := b3 }

/-- `PostProcessor.processFrame` (src/01/main.js lines 25-28):
`this.ctx.drawImage(this.video, 0, 0); this.callback =
this.video.requestVideoFrameCallback(this.processFrame.bind(this))`.
Note: the body never reads `this.destroyed`. -/
def PostProcessor.processFrame (s : St) : St :=
  let b1 := drawImageVideo s.env 0 0
  let r1 := bindProcessFrame b1
  let r2 := requestVideoFrameCallback r1.2 r1.1
  { env := r2.2, proc := { s.proc with callback := r2.1 } }

/-- The `PostProcessor` constructor (src/01/main.js lines 8-17), with the
world state threaded through and JavaScript exceptions made explicit.  Order
of effects follows the source: store fields; `video.addEventListener('resize',
this.resize.bind(this))`; `video.addEventListener('loadedmetadata',
this.resize.bind(this))`; `this.ctx = canvas.getContext('2d')`;
`this.resize()`; `this.callback =
video.requestVideoFrameCallback(this.processFrame.bind(this))`.  A method
call on a null handle raises the implicit `nullDeref` error at that point;
effects already performed (the two listener registrations, when only the
canvas is null) are kept, as a thrown JS exception does not roll them back. -/
def constructEffects (video canvas : Option Unit) (b0 : Browser) :
    Browser × Except JsError St :=
  match video with
  | none => (b0, Except.error JsError.nullDeref)
  | some _ =>
    let r1 := bindResize b0
    let b1 := { r1.2 with resizeListeners := addEventListener r1.2.resizeListeners r1.1 }
    let r2 := bindResize b1
    let b2 := { r2.2 with metaListeners := addEventListener r2.2.metaListeners r2.1 }
    match canvas with
    | none => (b2, Except.error JsError.nullDeref)
    | some _ =>
      let proc0 : PostProcessor :=
        { destroyed := false, video := video, canvas := canvas, ctx := some (), callback := 0 }
      let s1 := PostProcessor.resize { env := b2, proc := proc0 }
      let r3 := bindProcessFrame s1.env
      let r4 := requestVideoFrameCallback r3.2 r3.1
      (r4.2, Except.ok { env := r4.2, proc := { s1.proc with callback := r4.1 } })

/-- `PostProcessor.destroy` (src/01/main.js lines 30-35):
`this.destroyed = true; this.video.cancelVideoFrameCallback(this.callback);
this.video.removeEventListener('resize', this.resize);
this.video.removeEventListener('loadedmetadata', this.resize)`.
Note: the references passed to `removeEventListener` are the UNBOUND prototype
method `this.resize` (`FunRef.resizeMethod`), not the bound function objects
that were registered in the constructor. -/
def PostProcessor.destroy (s : St) : Except JsError St :=
  let proc1 := { s.proc with destroyed := true }
  match s.proc.video with
  | none => Except.error JsError.nullDeref
  | some _ =>
    let b1 := cancelVideoFrameCallback s.env s.proc.callback
    let b2 := { b1 with resizeListeners := removeEventListener b1.resizeListeners FunRef.resizeMethod }
    let b3 := { b2 with metaListeners := removeEventListener b2.metaListeners FunRef.resizeMethod }
    Except.ok { env := b3, proc := proc1 }

/-- Invoke a stored handler reference.  Only the bound function objects are
ever registered as handlers by the code, so only they carry behaviour; the
unbound prototype methods are never registered and never invoked (calling one
as a bare function would itself be a `this`-is-undefined error in JS), so they
are modelled as inert. -/
def invoke (f : FunRef) (s : St) : St :=
  match f with
  | FunRef.boundResize _ => PostProcessor.resize s
  | FunRef.boundProcessFrame _ => PostProcessor.processFrame s
  | FunRef.resizeMethod => s
  | FunRef.processFrameMethod => s

/-- Dispatch of the video `resize` event: every currently registered listener
runs, in registration order. -/
def fireResize (s : St) : St :=
  s.env.resizeListeners.foldl (fun acc f => invoke f acc) s

/-- Dispatch of the video `loadedmetadata` event. -/
def fireMeta (s : St) : St :=
  s.env.metaListeners.foldl (fun acc f => invoke f acc) s

/-- A "dimensions changed" notification: the platform updates the video's
natural dimensions and fires the `resize` event. -/
def dimensionsChanged (w h : Nat) (s : St) : St :=
  fireResize { s with env := { s.env with videoWidth := w, videoHeight := h } }

/-- A "metadata loaded" notification: the platform records the video's
dimensions and fires the `loadedmetadata` event. -/
def metadataLoaded (w h : Nat) (s : St) : St :=
  fireMeta { s with env := { s.env with videoWidth := w, videoHeight := h } }

/-- Run the callback registered under one video-frame-callback handle, if any
registration with that handle exists. -/
def fireVfcOne (acc : St) (id : Nat) : St :=
  match acc.env.vfcAll.find? (fun e => e.1 == id) with
  | some e => invoke e.2 acc
  | none => acc

/-- Clear the set of pending video-frame-callback subscriptions (they are
one-shot: consumed when the frame is presented). -/
def clearActive (s : St) : St :=
  { s with env := { s.env with vfcActive := [] } }

/-- A "frame presented" notification: the pending one-shot callbacks are
consumed and invoked in registration order (a callback re-registered during
the dispatch runs on the NEXT presented frame, as in the platform). -/
def framePresented (s : St) : St :=
  s.env.vfcActive.foldl fireVfcOne (clearActive s)

/-- Delivery of a frame-presentation notification to one specific subscription
handle, whether or not that handle is still active — this models a
notification already in flight when the subscription was cancelled, delivered
to the (orphaned) handle.  The handle is consumed if it was still active. -/
def deliverVfc (id : Nat) (s : St) : St :=
  fireVfcOne { s with env := { s.env with vfcActive := s.env.vfcActive.filter (fun j => j != id) } } id

/-- External notifications the embedding page / platform can deliver. -/
inductive Ev where
  | dim : Nat → Nat → Ev
  | meta : Nat → Nat → Ev
  | frame : Ev
deriving DecidableEq, Repr

/-- One notification step. -/
def stepEv (s : St) (e : Ev) : St :=
  match e with
  | Ev.dim w h => dimensionsChanged w h s
  | Ev.meta w h => metadataLoaded w h s
  | Ev.frame => framePresented s

/-- Deliver a sequence of notifications. -/
def run (s : St) (evs : List Ev) : St :=
  evs.foldl stepEv s

/-- A fresh page: a video whose dimensions are already known (metadata
loaded), an untouched canvas, no listeners, no subscriptions. -/
def initialBrowser (w h : Nat) : Browser :=
  { videoWidth := w, videoHeight := h }

/-- Placeholder processor for the unreachable error branches below. -/
def defaultProc : PostProcessor :=
  { destroyed := true, video := none, canvas := none, ctx := none, callback := 0 }

/-- The state right after `new PostProcessor(video, canvas)` succeeds on a
fresh page whose video dimensions are `w × h` (construction with valid handles
cannot fail, so the error branch is unreachable). -/
def mkSt (w h : Nat) : St :=
  match (constructEffects (some ()) (some ()) (initialBrowser w h)).2 with
  | Except.ok s => s
  | Except.error _ => { env := initialBrowser w h, proc := defaultProc }

/-- The state right after `destroy()` on a freshly constructed processor
(destruction of a validly constructed processor cannot fail). -/
def afterDestroy (w h : Nat) : St :=
  match PostProcessor.destroy (mkSt w h) with
  | Except.ok t => t
  | Except.error _ => { env := initialBrowser w h, proc := defaultProc }

lemma destroy_mkSt (w h : Nat) :
    PostProcessor.destroy (mkSt w h) = Except.ok (afterDestroy w h) := rfl

/-- Claim C5: after the constructor returns, for any VideoSource whose
dimensions are already known at construction time, the DrawingSurface's
dimensions already equal the VideoSource's (sized synchronously by the
in-constructor `resize` call, with no notification delivered yet) and exactly
one frame-presentation subscription is pending. -/
theorem construction_sizes_surface_and_subscribes (w h : Nat) :
    (mkSt w h).env.canvasWidth = w ∧ (mkSt w h).env.canvasHeight = h ∧
    (mkSt w h).env.vfcActive.length = 1 :=
  ⟨rfl, rfl, rfl⟩

/-- Claim C9: after every invocation of the resize handler the surface's
filter expression equals the one fixed constant string
"contrast(1.5) saturate(200%)" — the filter assignment comes after both
dimension writes (each of which resets the filter to its default), so the
handler can never end with the filter cleared, and the same constant is
applied on every invocation. -/
theorem resize_sets_filter_constant (s : St) :
    (PostProcessor.resize s).env.ctxFilter = "contrast(1.5) saturate(200%)" :=
  rfl

/-- Claim C10: the resize handler is idempotent on the observable surface
state — for any fixed VideoSource dimensions, invoking it twice in succession
leaves the DrawingSurface's width, height and filter expression exactly as one
invocation does. -/
theorem resize_idempotent_on_surface (s : St) :
    (PostProcessor.resize (PostProcessor.resize s)).env.canvasWidth
        = (PostProcessor.resize s).env.canvasWidth ∧
    (PostProcessor.resize (PostProcessor.resize s)).env.canvasHeight
        = (PostProcessor.resize s).env.canvasHeight ∧
    (PostProcessor.resize (PostProcessor.resize s)).env.ctxFilter
        = (PostProcessor.resize s).env.ctxFilter :=
  ⟨rfl, rfl, rfl⟩

/-- Claim C1 (code bug): the claim says the frame-presented handler itself
checks the destroyed flag and refuses to act, so that no blit happens after
`destroy()` even when a notification is delivered to the orphaned prior
subscription handle.  The code's `processFrame` never reads `this.destroyed`:
on a 640×360 video, after `destroy()` (destroyed = true, blit log empty), a
frame-presentation notification delivered to the orphaned handle 0 still
performs a blit and even arms a fresh subscription. -/
theorem destroyed_processFrame_still_blits :
    (afterDestroy 640 360).proc.destroyed = true ∧
    (afterDestroy 640 360).env.blitLog.length = 0 ∧
    (afterDestroy 640 360).env.vfcActive = [] ∧
    (deliverVfc 0 (afterDestroy 640 360)).env.blitLog.length = 1 ∧
    (deliverVfc 0 (afterDestroy 640 360)).env.vfcActive.length = 1 := by
  refine ⟨rfl, rfl, rfl, rfl, rfl⟩

/-- Claim C2 (code bug): the claim says `destroy()` revokes the
dimensions-changed and metadata-loaded subscriptions so that no later
notification invokes the resize handler.  The constructor registered
`this.resize.bind(this)` (fresh function objects) while `destroy` passes the
unbound `this.resize` to `removeEventListener`, which therefore matches
nothing: after `destroy()` on a 640×360 video both listeners are still
registered, and a dimensions-changed notification of 1280×720 still resizes
the canvas. -/
theorem destroy_leaves_resize_listeners_registered :
    (afterDestroy 640 360).env.resizeListeners = [FunRef.boundResize 0] ∧
    (afterDestroy 640 360).env.metaListeners = [FunRef.boundResize 1] ∧
    (dimensionsChanged 1280 720 (afterDestroy 640 360)).env.canvasWidth = 1280 ∧
    (dimensionsChanged 1280 720 (afterDestroy 640 360)).env.canvasHeight = 720 := by
  refine ⟨rfl, rfl, rfl, rfl⟩

/-- Claim C6: calling `destroy()` a second time does not raise an error —
cancelling the already-cancelled frame-presentation subscription and the
(attempted) listener removals are no-ops, and the second call returns with the
state unchanged. -/
theorem destroy_twice_ok (w h : Nat) :
    PostProcessor.destroy (mkSt w h) = Except.ok (afterDestroy w h) ∧
    PostProcessor.destroy (afterDestroy w h) = Except.ok (afterDestroy w h) :=
  ⟨rfl, rfl⟩

/-- Claim C8: `destroy()` mutates only the processor's destroyed flag and the
subscription state — it leaves the canvas's width, height, filter expression
and drawn content unchanged, and leaves the stored video, canvas and
drawing-context references intact. -/
theorem destroy_preserves_surface_and_refs (s t : St)
    (h : PostProcessor.destroy s = Except.ok t) :
    t.env.canvasWidth = s.env.canvasWidth ∧
    t.env.canvasHeight = s.env.canvasHeight ∧
    t.env.ctxFilter = s.env.ctxFilter ∧
    t.env.bitmap = s.env.bitmap ∧
    t.env.blitLog = s.env.blitLog ∧
    t.proc.video = s.proc.video ∧
    t.proc.canvas = s.proc.canvas ∧
    t.proc.ctx = s.proc.ctx ∧
    t.proc.destroyed = true := by
  unfold PostProcessor.destroy at h
  cases hv : s.proc.video with
  | none =>
    rw [hv] at h
    exact absurd h (by simp)
  | some u =>
    rw [hv] at h
    simp only [Except.ok.injEq] at h
    subst h
    exact ⟨rfl, rfl, rfl, rfl, rfl, hv, rfl, rfl, rfl⟩

/-- Witness for the C8 theorem at a concrete destroyed processor. -/
theorem destroy_preserves_witness :
    (afterDestroy 2 3).env.canvasWidth = (mkSt 2 3).env.canvasWidth ∧
    (afterDestroy 2 3).env.canvasHeight = (mkSt 2 3).env.canvasHeight ∧
    (afterDestroy 2 3).env.ctxFilter = (mkSt 2 3).env.ctxFilter ∧
    (afterDestroy 2 3).env.bitmap = (mkSt 2 3).env.bitmap ∧
    (afterDestroy 2 3).env.blitLog = (mkSt 2 3).env.blitLog ∧
    (afterDestroy 2 3).proc.video = (mkSt 2 3).proc.video ∧
    (afterDestroy 2 3).proc.canvas = (mkSt 2 3).proc.canvas ∧
    (afterDestroy 2 3).proc.ctx = (mkSt 2 3).proc.ctx ∧
    (afterDestroy 2 3).proc.destroyed = true :=
  destroy_preserves_surface_and_refs (mkSt 2 3) (afterDestroy 2 3) rfl

/-- Claim C7, counterexample: the claim says construction with a null handle
raises an EXPLICIT error rather than completing and proceeding with the null
reference.  With a valid video and a null canvas, the error actually produced
is the implicit null-dereference `TypeError` from `canvas.getContext('2d')`
(the code contains no explicit validation or `throw`), and by the time it is
raised both video event listeners have already been registered. -/
theorem construct_null_no_explicit_error :
    (constructEffects (some ()) none (initialBrowser 640 360)).2
        = Except.error JsError.nullDeref ∧
    JsError.nullDeref ≠ JsError.explicitThrow ∧
    (constructEffects (some ()) none (initialBrowser 640 360)).1.resizeListeners
        = [FunRef.boundResize 0] ∧
    (constructEffects (some ()) none (initialBrowser 640 360)).1.metaListeners
        = [FunRef.boundResize 1] := by
  refine ⟨rfl, by decide, rfl, rfl⟩

/-- Claim C7, amended: construction with a null VideoSource or DrawingSurface
handle never completes — the first platform operation on the null handle
raises the implicit null-dereference `TypeError` — but the error is not an
explicitly raised validation error, and with a null DrawingSurface the two
video event subscriptions have already been registered before the failure. -/
theorem construct_null_raises_implicit_error (video canvas : Option Unit)
    (b : Browser) (h : video = none ∨ canvas = none) :
    (constructEffects video canvas b).2 = Except.error JsError.nullDeref := by
  rcases h with h | h
  · subst h; rfl
  · subst h
    cases video with
    | none => rfl
    | some u => rfl

/-- Witness for the amended C7 theorem at a concrete null input. -/
theorem construct_null_witness :
    (constructEffects none (some ()) (initialBrowser 1 1)).2
        = Except.error JsError.nullDeref :=
  construct_null_raises_implicit_error none (some ()) (initialBrowser 1 1) (Or.inl rfl)

lemma invoke_resizeListeners (f : FunRef) (s : St) :
    (invoke f s).env.resizeListeners = s.env.resizeListeners := by
  cases f <;> rfl

lemma invoke_metaListeners (f : FunRef) (s : St) :
    (invoke f s).env.metaListeners = s.env.metaListeners := by
  cases f <;> rfl

lemma foldl_invoke_resizeListeners (fs : List FunRef) (s : St) :
    (fs.foldl (fun acc f => invoke f acc) s).env.resizeListeners
      = s.env.resizeListeners := by
  induction fs generalizing s with
  | nil => rfl
  | cons f fs ih => rw [List.foldl_cons, ih, invoke_resizeListeners]

lemma foldl_invoke_metaListeners (fs : List FunRef) (s : St) :
    (fs.foldl (fun acc f => invoke f acc) s).env.metaListeners
      = s.env.metaListeners := by
  induction fs generalizing s with
  | nil => rfl
  | cons f fs ih => rw [List.foldl_cons, ih, invoke_metaListeners]

lemma fireVfcOne_resizeListeners (s : St) (id : Nat) :
    (fireVfcOne s id).env.resizeListeners = s.env.resizeListeners := by
  unfold fireVfcOne
  cases h : s.env.vfcAll.find? (fun e => e.1 == id) with
  | none => rfl
  | some e => exact invoke_resizeListeners e.2 s

lemma fireVfcOne_metaListeners (s : St) (id : Nat) :
    (fireVfcOne s id).env.metaListeners = s.env.metaListeners := by
  unfold fireVfcOne
  cases h : s.env.vfcAll.find? (fun e => e.1 == id) with
  | none => rfl
  | some e => exact invoke_metaListeners e.2 s

lemma foldl_fireVfcOne_resizeListeners (ids : List Nat) (s : St) :
    (ids.foldl fireVfcOne s).env.resizeListeners = s.env.resizeListeners := by
  induction ids generalizing s with
  | nil => rfl
  | cons i ids ih => rw [List.foldl_cons, ih, fireVfcOne_resizeListeners]

lemma foldl_fireVfcOne_metaListeners (ids : List Nat) (s : St) :
    (ids.foldl fireVfcOne s).env.metaListeners = s.env.metaListeners := by
  induction ids generalizing s with
  | nil => rfl
  | cons i ids ih => rw [List.foldl_cons, ih, fireVfcOne_metaListeners]

lemma stepEv_resizeListeners (s : St) (e : Ev) :
    (stepEv s e).env.resizeListeners = s.env.resizeListeners := by
  cases e with
  | dim w h =>
    unfold stepEv dimensionsChanged fireResize
    rw [foldl_invoke_resizeListeners]
  | meta w h =>
    unfold stepEv metadataLoaded fireMeta
    rw [foldl_invoke_resizeListeners]
  | frame =>
    unfold stepEv framePresented
    rw [foldl_fireVfcOne_resizeListeners]
    rfl

lemma stepEv_metaListeners (s : St) (e : Ev) :
    (stepEv s e).env.metaListeners = s.env.metaListeners := by
  cases e with
  | dim w h =>
    unfold stepEv dimensionsChanged fireResize
    rw [foldl_invoke_metaListeners]
  | meta w h =>
    unfold stepEv metadataLoaded fireMeta
    rw [foldl_invoke_metaListeners]
  | frame =>
    unfold stepEv framePresented
    rw [foldl_fireVfcOne_metaListeners]
    rfl

lemma run_resizeListeners (evs : List Ev) (s : St) :
    (run s evs).env.resizeListeners = s.env.resizeListeners := by
  induction evs generalizing s with
  | nil => rfl
  | cons e evs ih =>
    unfold run
    rw [List.foldl_cons]
    exact (ih (stepEv s e)).trans (stepEv_resizeListeners s e)

lemma run_metaListeners (evs : List Ev) (s : St) :
    (run s evs).env.metaListeners = s.env.metaListeners := by
  induction evs generalizing s with
  | nil => rfl
  | cons e evs ih =>
    unfold run
    rw [List.foldl_cons]
    exact (ih (stepEv s e)).trans (stepEv_metaListeners s e)

lemma fireResize_single (s : St) (i : Nat)
    (h : s.env.resizeListeners = [FunRef.boundResize i]) :
    fireResize s = PostProcessor.resize s := by
  unfold fireResize
  rw [h]
  rfl

lemma fireMeta_single (s : St) (i : Nat)
    (h : s.env.metaListeners = [FunRef.boundResize i]) :
    fireMeta s = PostProcessor.resize s := by
  unfold fireMeta
  rw [h]
  rfl

/-- Claim C3: for every sequence of notifications delivered to a (freshly
constructed, non-destroyed) renderer, after each handled "dimensions changed"
or "metadata loaded" notification the canvas's width equals the video's width,
its height equals the video's height, and the context's filter expression is
non-empty (it was reapplied by the handler).  The arbitrary list `evs` places
the handled notification at an arbitrary point of an arbitrary sequence. -/
theorem resize_event_syncs_dimensions (w0 h0 w h : Nat) (evs : List Ev) :
    ((dimensionsChanged w h (run (mkSt w0 h0) evs)).env.canvasWidth
        = (dimensionsChanged w h (run (mkSt w0 h0) evs)).env.videoWidth ∧
      (dimensionsChanged w h (run (mkSt w0 h0) evs)).env.canvasHeight
        = (dimensionsChanged w h (run (mkSt w0 h0) evs)).env.videoHeight ∧
      (dimensionsChanged w h (run (mkSt w0 h0) evs)).env.ctxFilter ≠ "") ∧
    ((metadataLoaded w h (run (mkSt w0 h0) evs)).env.canvasWidth
        = (metadataLoaded w h (run (mkSt w0 h0) evs)).env.videoWidth ∧
      (metadataLoaded w h (run (mkSt w0 h0) evs)).env.canvasHeight
        = (metadataLoaded w h (run (mkSt w0 h0) evs)).env.videoHeight ∧
      (metadataLoaded w h (run (mkSt w0 h0) evs)).env.ctxFilter ≠ "") := by
  have hr : (run (mkSt w0 h0) evs).env.resizeListeners = [FunRef.boundResize 0] := by
    rw [run_resizeListeners]
    rfl
  have hm : (run (mkSt w0 h0) evs).env.metaListeners = [FunRef.boundResize 1] := by
    rw [run_metaListeners]
    rfl
  have hd : dimensionsChanged w h (run (mkSt w0 h0) evs)
      = PostProcessor.resize { run (mkSt w0 h0) evs with
          env := { (run (mkSt w0 h0) evs).env with videoWidth := w, videoHeight := h } } := by
    unfold dimensionsChanged
    exact fireResize_single _ 0 hr
  have hmeta : metadataLoaded w h (run (mkSt w0 h0) evs)
      = PostProcessor.resize { run (mkSt w0 h0) evs with
          env := { (run (mkSt w0 h0) evs).env with videoWidth := w, videoHeight := h } } := by
    unfold metadataLoaded
    exact fireMeta_single _ 1 hm
  refine ⟨⟨?_, ?_, ?_⟩, ⟨?_, ?_, ?_⟩⟩
  · rw [hd]
    rfl
  · rw [hd]
    rfl
  · rw [hd]
    show filterConst ≠ ""
    decide
  · rw [hmeta]
    rfl
  · rw [hmeta]
    rfl
  · rw [hmeta]
    show filterConst ≠ ""
    decide

lemma clearActive_vfcAll (s : St) : (clearActive s).env.vfcAll = s.env.vfcAll := rfl

lemma clearActive_nextVfcId (s : St) :
    (clearActive s).env.nextVfcId = s.env.nextVfcId := rfl

lemma clearActive_nextBindId (s : St) :
    (clearActive s).env.nextBindId = s.env.nextBindId := rfl

lemma processFrame_vfcAll (s : St) :
    (PostProcessor.processFrame s).env.vfcAll
      = s.env.vfcAll ++ [(s.env.nextVfcId, FunRef.boundProcessFrame s.env.nextBindId)] := rfl

lemma processFrame_nextVfcId (s : St) :
    (PostProcessor.processFrame s).env.nextVfcId = s.env.nextVfcId + 1 := rfl

/-- While not destroyed the repaint loop maintains: exactly one pending
frame-presentation subscription, whose registration maps its handle to a bound
`processFrame` handler, with all handles ever issued below the allocator. -/
def FrameInv (s : St) : Prop :=
  ∃ i j, s.env.vfcActive = [i] ∧
    s.env.vfcAll.find? (fun e => e.1 == i) = some (i, FunRef.boundProcessFrame j) ∧
    ∀ e ∈ s.env.vfcAll, e.1 < s.env.nextVfcId

lemma find_append_new (l : List (Nat × FunRef)) (n : Nat) (f : FunRef)
    (h : ∀ e ∈ l, e.1 < n) :
    (l ++ [(n, f)]).find? (fun e => e.1 == n) = some (n, f) := by
  induction l with
  | nil => simp [List.find?]
  | cons a l ih =>
    have ha : a.1 < n := h a (List.mem_cons_self a l)
    have hne : (a.1 == n) = false := by
      simpa using Nat.ne_of_lt ha
    rw [List.cons_append]
    simp only [List.find?, hne]
    exact ih (fun e he => h e (List.mem_cons_of_mem a he))

lemma framePresented_eq (s : St) (i j : Nat)
    (ha : s.env.vfcActive = [i])
    (hf : s.env.vfcAll.find? (fun e => e.1 == i)
        = some (i, FunRef.boundProcessFrame j)) :
    framePresented s = PostProcessor.processFrame (clearActive s) := by
  unfold framePresented
  rw [ha]
  show fireVfcOne (clearActive s) i = PostProcessor.processFrame (clearActive s)
  unfold fireVfcOne
  rw [clearActive_vfcAll, hf]
  rfl

lemma framePresented_step (s : St) (h : FrameInv s) :
    FrameInv (framePresented s) ∧
    (framePresented s).env.blitLog
      = s.env.blitLog ++ [{ srcW := s.env.videoWidth, srcH := s.env.videoHeight, dx := 0, dy := 0 }] ∧
    (framePresented s).env.videoWidth = s.env.videoWidth ∧
    (framePresented s).env.videoHeight = s.env.videoHeight := by
  obtain ⟨i, j, ha, hf, hb⟩ := h
  rw [framePresented_eq s i j ha hf]
  refine ⟨?_, rfl, rfl, rfl⟩
  refine ⟨s.env.nextVfcId, s.env.nextBindId, rfl, ?_, ?_⟩
  · rw [processFrame_vfcAll, clearActive_vfcAll, clearActive_nextVfcId,
      clearActive_nextBindId]
    exact find_append_new s.env.vfcAll s.env.nextVfcId _ hb
  · rw [processFrame_vfcAll, processFrame_nextVfcId, clearActive_vfcAll,
      clearActive_nextVfcId, clearActive_nextBindId]
    intro e he
    rcases List.mem_append.mp he with h1 | h1
    · exact Nat.lt_succ_of_lt (hb e h1)
    · rw [List.mem_singleton.mp h1]
      exact Nat.lt_succ_self _

lemma mkSt_FrameInv (w h : Nat) : FrameInv (mkSt w h) := by
  refine ⟨0, 2, rfl, rfl, ?_⟩
  show ∀ e ∈ [((0 : Nat), FunRef.boundProcessFrame 2)], e.1 < 1
  decide

lemma run_replicate_frame (n : Nat) (s : St) (h : FrameInv s) :
    FrameInv (run s (List.replicate n Ev.frame)) ∧
    (run s (List.replicate n Ev.frame)).env.blitLog
      = s.env.blitLog
        ++ List.replicate n { srcW := s.env.videoWidth, srcH := s.env.videoHeight, dx := 0, dy := 0 } ∧
    (run s (List.replicate n Ev.frame)).env.videoWidth = s.env.videoWidth ∧
    (run s (List.replicate n Ev.frame)).env.videoHeight = s.env.videoHeight := by
  induction n generalizing s with
  | zero =>
    refine ⟨h, ?_, rfl, rfl⟩
    simp [run]
  | succ n ih =>
    obtain ⟨h1, h2, h3, h4⟩ := framePresented_step s h
    obtain ⟨g1, g2, g3, g4⟩ := ih (framePresented s) h1
    have hrun : run s (List.replicate (n + 1) Ev.frame)
        = run (framePresented s) (List.replicate n Ev.frame) := by
      rw [List.replicate_succ]
      rfl
    rw [hrun]
    refine ⟨g1, ?_, ?_, ?_⟩
    · rw [g2, h2, h3, h4, List.append_assoc, List.singleton_append,
        ← List.replicate_succ]
    · rw [g3, h3]
    · rw [g4, h4]

/-- Claim C4: for every sequence of N "frame presented" notifications
delivered before `destroy()`, exactly N blits occur — each a single copy of
the source's current content at the origin — and after each handled
notification exactly one frame-presentation subscription is outstanding (the
handler re-arms it immediately).  Quantifying over N covers every prefix of
the sequence, so "after each" is the instance at each k ≤ N. -/
theorem frame_events_blit_once_each (w0 h0 n : Nat) :
    (run (mkSt w0 h0) (List.replicate n Ev.frame)).env.blitLog
      = List.replicate n { srcW := w0, srcH := h0, dx := 0, dy := 0 } ∧
    (run (mkSt w0 h0) (List.replicate n Ev.frame)).env.vfcActive.length = 1 := by
  obtain ⟨hinv, hlog, hw, hh⟩ := run_replicate_frame n (mkSt w0 h0) (mkSt_FrameInv w0 h0)
  constructor
  · exact hlog
  · obtain ⟨i, j, ha, hf, hb⟩ := hinv
    rw [ha]
    rfl
